import Mathlib

/-!
Verification of the babylonfish dataset generators.

Shallow embedding of `src/ML/Data/generate_dataset.py` (namespace `Base`)
and `src/ML/generate_expanded_dataset.py` (namespace `Exp`).
Python strings are modelled as Lean `String` (a list of unicode code
points, matching Python's code-point view of `str`), Python lists as
Lean `List`, and the `(text, label)` tuples as `String × String`.

The only randomness in the scripts comes from Python's global `random`
module.  It is modelled by explicit parameters:
* the base generator calls `random.seed(42)` and then `random.choice`
  on a fixed pool; the draws are modelled by a function
  `choice : Nat → String` giving the successive draws (two per loop
  iteration), and the reseeding by the fact that the run function below
  ignores any prior generator state;
* the expanded generator calls `random.sample` (which returns a
  permutation of the whole pool here, because the requested size
  `min 1000 (pool length)` equals the pool length) and
  `random.shuffle` (a permutation of the dataset); they are modelled
  by a `sample` list and a `shuffle` function, quantified over all
  values satisfying the corresponding permutation facts.
-/

namespace Babylonfish
namespace Base


def english_words : List String := [
  "hello", "world", "good", "morning", "evening", "night", "day", "week", "month", "year", "time",
  "date", "now", "today", "tomorrow", "yesterday", "please", "thank", "you", "welcome", "sorry",
  "excuse", "yes", "no", "maybe", "ok", "okay", "right", "wrong", "true", "false", "new", "old",
  "big", "small", "long", "short", "high", "low", "fast", "slow", "good", "bad", "better", "best",
  "worse", "worst", "more", "less", "much", "many", "one", "two", "three", "four", "five", "six",
  "seven", "eight", "nine", "ten", "first", "second", "third", "last", "next", "previous", "before",
  "after", "during", "while", "with", "without", "from", "to", "at", "in", "on", "by", "for",
  "of", "and", "or", "but", "if", "then", "else", "when", "where", "why", "how", "what", "which",
  "who", "whom", "whose", "this", "that", "these", "those", "computer", "software", "hardware",
  "program", "code", "developer", "engineer", "algorithm", "function", "variable", "constant",
  "array", "string", "number", "boolean", "class", "object", "method", "property", "protocol",
  "interface", "struct", "enum", "if", "else", "for", "while", "switch", "case", "break", "continue",
  "return", "import", "export", "module", "package", "library", "framework", "dependency", "git",
  "commit", "push", "pull", "merge", "branch", "repository", "clone", "debug", "error", "warning",
  "exception", "throw", "catch", "try", "finally", "database", "query", "table", "column", "row",
  "index", "key", "value", "api", "rest", "json", "xml", "http", "https", "url", "uri", "endpoint",
  "server", "client", "request", "response", "header", "body", "status", "code", "test", "unit",
  "integration", "mock", "stub", "assert", "expect", "verify", "build", "compile", "deploy",
  "release", "version", "update", "patch", "hotfix", "macos", "ios", "android", "windows", "linux",
  "unix", "system", "kernel", "swift", "python", "javascript", "java", "cpp", "rust", "go", "ruby",
  "php", "xcode", "vscode", "terminal", "console", "shell", "bash", "zsh", "command", "file",
  "folder", "directory", "path", "extension", "name", "size", "permission", "memory", "cpu",
  "disk", "network", "internet", "wifi", "bluetooth", "usb", "macbook", "imac", "macmini", "macpro",
  "iphone", "ipad", "ipod", "watch", "appstore", "icloud", "finder", "dock", "spotlight", "mission",
  "control", "siri", "airdrop", "handoff", "continuity", "sidecar", "universal", "clipboard",
  "keyboard", "mouse", "trackpad", "monitor", "display", "resolution", "color", "setting", "preference",
  "option", "choice", "selection", "default", "custom", "accessibility", "security", "privacy",
  "permission", "authorization", "login", "password", "username", "email", "address", "phone",
  "contact", "message", "hello world", "how are you", "good morning", "good evening", "thank you",
  "you are welcome", "excuse me", "sorry about that", "no problem", "that is fine", "see you later",
  "have a nice day", "take care", "good luck", "best wishes", "i am fine", "i am good", "what is up",
  "not much", "same here", "let me know", "keep in touch", "stay safe", "be careful", "all the best",
  "programming is fun", "code is poetry", "debug this", "fix the bug", "release it", "push to production",
  "merge the branch", "commit changes", "pull request", "code review", "system settings", "preferences",
  "access control", "user permissions", "admin rights", "keyboard layout", "input method", "text input",
  "spell checker", "autocorrect"
]

def russian_words : List String := [
  "привет", "мир", "доброе", "утро", "вечер", "день", "ночь", "неделя", "месяц", "год", "время",
  "дата", "сейчас", "сегодня", "завтра", "вчера", "пожалуйста", "спасибо", "тебя", "приветствую",
  "извини", "прости", "да", "нет", "может", "хорошо", "окей", "правильно", "неправильно", "да",
  "нет", "новый", "старый", "большой", "маленький", "длинный", "короткий", "высокий", "низкий",
  "быстрый", "медленный", "хороший", "плохой", "лучше", "лучший", "хуже", "худший", "больше",
  "меньше", "много", "мало", "один", "два", "три", "четыре", "пять", "шесть", "семь", "восемь",
  "девять", "десять", "первый", "второй", "третий", "последний", "следующий", "предыдущий", "до",
  "после", "во время", "пока", "с", "без", "от", "к", "в", "на", "по", "для", "из", "о", "и",
  "или", "но", "если", "тогда", "иначе", "когда", "где", "почему", "как", "что", "который", "кто",
  "кого", "чей", "этот", "тот", "эти", "те", "компьютер", "программа", "код", "разработчик",
  "инженер", "алгоритм", "функция", "переменная", "константа", "массив", "строка", "число", "логический",
  "класс", "объект", "метод", "свойство", "протокол", "интерфейс", "структура", "перечисление",
  "если", "иначе", "для", "пока", "переключатель", "случай", "прерывание", "продолжение", "вернуть",
  "импорт", "экспорт", "модуль", "пакет", "библиотека", "фреймворк", "зависимость", "гит", "коммит",
  "пуш", "пулл", "слияние", "ветка", "репозиторий", "клон", "отладка", "ошибка", "предупреждение",
  "исключение", "выбросить", "поймать", "попробовать", "наконец", "база данных", "запрос", "таблица",
  "колонка", "строка", "индекс", "ключ", "значение", "апи", "ресурс", "джейсон", "эксэмэль",
  "хттп", "хттпс", "урл", "ури", "эндпоинт", "сервер", "клиент", "запрос", "ответ", "заголовок",
  "тело", "статус", "код", "тест", "юнит", "интеграционный", "мок", "заглушка", "проверка", "ожидание",
  "верификация", "сборка", "компиляция", "развертывание", "релиз", "версия", "обновление", "патч",
  "хотфикс", "макос", "айос", "андроид", "виндоус", "линукс", "юникс", "система", "ядро", "свифт",
  "питон", "джаваскрипт", "джава", "си плюс плюс", "раст", "го", "руби", "пхп", "икскод", "вскулкод",
  "терминал", "консоль", "шелл", "баш", "зш", "команда", "файл", "папка", "директория", "путь",
  "расширение", "имя", "размер", "права", "память", "процессор", "диск", "сеть", "интернет",
  "вайфай", "блютус", "юэсби", "привет мир", "как дела", "доброе утро", "добрый вечер", "спасибо тебе",
  "не за что", "извини меня", "прости за это", "нет проблем", "все в порядке", "увидимся позже",
  "хорошего дня", "пока", "удачи", "наилучших пожеланий", "я в порядке", "я хорошо", "что нового",
  "ничего особенного", "так же", "дай знать", "держись", "будь осторожен", "все самое лучшее",
  "счастливо", "программирование это весело", "код это поэзия", "отладь это", "исправь ошибку",
  "выпусти релиз", "запуши в продакшн", "смержи ветку", "закоммити изменения", "запуши запрос",
  "ревью кода", "системные настройки", "предпочтения", "контроль доступа", "права пользователя",
  "админ права", "раскладка клавиатуры", "метод ввода", "ввод текста", "проверка орфографии",
  "автоисправление"
]

def original_data : List (String × String) := [
  ("hello world", "en"),
  ("how are you", "en"),
  ("programming is fun", "en"),
  ("swift language", "en"),
  ("apple macbook pro", "en"),
  ("keyboard layout", "en"),
  ("input monitoring", "en"),
  ("system settings", "en"),
  ("access control", "en"),
  ("permissions reset", "en"),
  ("привет мир", "ru"),
  ("как дела", "ru"),
  ("программирование это весело", "ru"),
  ("язык свифт", "ru"),
  ("яблочный ноутбук", "ru"),
  ("раскладка клавиатуры", "ru"),
  ("мониторинг ввода", "ru"),
  ("системные настройки", "ru"),
  ("контроль доступа", "ru"),
  ("сброс прав", "ru"),
  ("ghbdtn", "ru_wrong"),
  ("rfr ltkf", "ru_wrong"),
  ("ntcn", "ru_wrong"),
  ("fggkt", "ru_wrong"),
  ("qwerty", "en"),
  ("йцукен", "ru"),
  ("building project", "en"),
  ("сборка проекта", "ru"),
  ("version control", "en"),
  ("контроль версий", "ru")
]

def en_phrases : List String := [
  "good morning", "have a nice day", "see you later", "thank you very much", "excuse me please",
  "no problem at all", "that is correct", "i am fine", "what is new", "nothing special", "same as always",
  "all good here", "programming language", "software development", "machine learning", "artificial intelligence",
  "data science", "web development", "mobile app", "user interface", "user experience", "operating system",
  "computer science", "information technology", "network security", "cloud computing", "database management",
  "system architecture", "code review", "version control", "continuous integration", "testing framework",
  "debugging tool", "development environment", "production server", "access control", "user permissions",
  "admin rights", "system preferences"
]

def ru_phrases : List String := [
  "доброе утро", "хорошего дня", "увидимся позже", "большое спасибо", "извини пожалуйста", "нет проблем",
  "это правильно", "я в порядке", "что нового", "ничего особенного", "как всегда", "все хорошо",
  "язык программирования", "разработка программного обеспечения", "машинное обучение", "искусственный интеллект",
  "наука о данных", "веб разработка", "мобильное приложение", "пользовательский интерфейс", "пользовательский опыт",
  "операционная система", "информатика", "информационные технологии", "безопасность сети", "облачные вычисления",
  "управление базами данных", "системная архитектура", "ревью кода", "контроль версий", "непрерывная интеграция",
  "фреймворк тестирования", "инструмент отладки", "среда разработки", "сервер для продакшена"
]

def ru_phrases_to_convert : List String := [
  "доброе утро", "хорошего дня", "увидимся позже", "большое спасибо", "программирование это интересно",
  "код это искусство", "исправь ошибку", "запуши изменения", "сделай коммит", "открой терминал",
  "запусти сервер", "системные настройки", "настройки клавиатуры", "проверь орфографию", "включи автокоррекцию",
  "как дела", "что нового", "все хорошо", "спасибо тебе", "нет проблем", "открой файл", "сохрани изменения",
  "закрой окно", "перезагрузи систему", "включи музыку", "открой браузер", "напиши код", "запуши код",
  "сделай тест", "исправь баг", "проверь логи", "очисти кэш"
]


end Base

namespace Exp


def popular_en : List String := [
  "the", "be", "to", "of", "and", "a", "in", "that", "have", "i", "it", "for", "not", "on", "with",
  "he", "as", "you", "do", "at", "this", "but", "his", "by", "from", "they", "we", "say", "her",
  "she", "or", "an", "will", "my", "one", "all", "would", "there", "their", "what", "so", "up",
  "out", "if", "about", "who", "get", "which", "go", "me", "when", "make", "can", "like", "time",
  "no", "just", "him", "know", "take", "people", "into", "year", "your", "good", "some", "could",
  "them", "see", "other", "than", "then", "now", "look", "only", "come", "its", "over", "think",
  "also", "back", "after", "use", "two", "how", "our", "work", "first", "well", "way", "even",
  "new", "want", "because", "any", "these", "give", "day", "most", "us", "world", "life", "problem",
  "make", "help", "go", "need", "find", "look", "see", "know", "think", "come", "want", "give",
  "use", "find", "tell", "ask", "work", "seem", "feel", "try", "leave", "call", "good", "new",
  "first", "last", "long", "great", "little", "own", "other", "old", "right", "big", "high",
  "different", "small", "large", "next", "early", "young", "important", "few", "public", "bad",
  "same", "able", "house", "number", "boy", "word", "business", "issue", "side", "kind", "head",
  "house", "service", "friend", "father", "power", "hour", "game", "line", "end", "member", "law",
  "car", "city", "community", "name", "president", "team", "minute", "idea", "kid", "body", "information",
  "back", "parent", "face", "others", "level", "office", "door", "health", "person", "art", "war",
  "history", "party", "result", "change", "morning", "reason", "research", "girl", "guy", "moment",
  "air", "teacher", "force", "education"
]

def conjunctions_en : List String := [
  "and", "but", "or", "nor", "for", "yet", "so", "although", "though", "because", "since", "as",
  "if", "unless", "until", "while", "where", "after", "before", "when", "whenever", "wherever",
  "whether", "that", "which", "who", "whom", "whose", "what", "whatever", "whichever", "both",
  "either", "neither", "not", "only", "also", "even", "just"
]

def short_en : List String := [
  "a", "i", "be", "do", "go", "is", "it", "me", "my", "no", "ok", "on", "to", "up", "us", "we",
  "all", "and", "are", "but", "can", "did", "for", "get", "had", "has", "her", "him", "his",
  "how", "its", "let", "may", "new", "now", "off", "old", "one", "our", "out", "own", "put",
  "run", "saw", "say", "see", "she", "sit", "too", "top", "try", "two", "use", "was", "way",
  "who", "why", "yes", "you", "the", "not", "any"
]

def phrases_en : List String := [
  "how are you", "good morning", "good evening", "thank you", "you are welcome", "excuse me",
  "sorry about that", "no problem", "that is fine", "see you later", "have a nice day", "take care",
  "good luck", "best wishes", "i am fine", "i am good", "what is up", "not much", "same here",
  "let me know", "keep in touch", "stay safe", "be careful", "all the best", "programming is fun",
  "code is poetry", "debug this", "fix the bug", "release it", "push to production", "merge the branch",
  "commit changes", "code review", "system settings", "preferences", "access control", "user permissions",
  "admin rights", "keyboard layout", "input method", "text input", "spell checker", "autocorrect"
]

def additional_en : List String := [
  "apple", "banana", "orange", "grape", "mango", "pineapple", "peach", "computer", "laptop",
  "keyboard", "mouse", "monitor", "printer", "scanner", "internet", "wifi", "bluetooth", "network",
  "server", "database", "cloud", "software", "hardware", "program", "code", "develop", "test",
  "debug", "swift", "python", "java", "javascript", "rust", "go", "ruby", "php", "github", "git",
  "docker", "kubernetes", "linux", "windows", "macos", "ios", "android", "mobile", "web", "api",
  "rest", "json", "xml", "html", "css", "security", "privacy", "permission", "access", "control",
  "user", "admin", "login", "password", "email", "address", "phone", "contact", "message", "lemon",
  "lime", "cherry", "berry", "melon", "kiwi", "papaya", "coconut", "avocado", "guava", "mangosteen",
  "passionfruit", "tomato", "potato", "carrot", "cucumber", "pepper", "onion", "garlic", "broccoli",
  "cabbage", "spinach", "lettuce", "celery", "beet", "dog", "cat", "bird", "fish", "horse", "cow",
  "pig", "sheep", "chicken", "duck", "goose", "rabbit", "deer", "bear", "wolf", "fox", "rose",
  "tulip", "daisy", "lily", "sunflower", "orchid", "lotus", "jasmine", "lavender", "dandelion",
  "daffodil", "marigold", "blockchain", "cryptocurrency", "nft", "metaverse", "artificial", "neural",
  "algorithm", "automation", "robot", "machine", "intelligence", "learning", "pizza", "burger",
  "sushi", "pasta", "noodle", "rice", "bread", "cake", "cookie", "chocolate", "coffee", "tea",
  "juice", "water", "soda", "beer", "car", "bus", "train", "plane", "ship", "bicycle", "motorcycle",
  "scooter", "subway", "taxi", "uber", "truck", "van", "boat", "yacht", "helicopter", "shirt",
  "pants", "dress", "skirt", "jacket", "coat", "shoes", "boots", "hat", "cap", "scarf", "gloves",
  "socks", "belt", "tie", "uniform", "soccer", "football", "basketball", "tennis", "volleyball",
  "baseball", "hockey", "golf", "swimming", "running", "jumping", "dancing", "singing", "rock",
  "pop", "jazz", "blues", "classical", "country", "rap", "hiphop", "electronic", "techno", "house",
  "trance", "ambient", "folk", "reggae", "sunny", "rainy", "cloudy", "windy", "snowy", "stormy",
  "foggy", "hazy", "breezy", "humid", "dry", "wet", "hot", "cold", "warm", "cool", "morning",
  "afternoon", "evening", "night", "midnight", "dawn", "dusk", "twilight", "sunrise", "sunset",
  "daylight", "darkness", "sunshine", "moonlight"
]

def popular_ru : List String := [
  "и", "в", "не", "на", "я", "быть", "он", "что", "это", "весь", "с", "а", "по", "к", "но", "они",
  "мы", "ты", "вы", "который", "время", "год", "говорить", "делать", "себя", "человек", "работа",
  "рука", "жизнь", "день", "новый", "глаз", "стать", "дом", "лицо", "друг", "случай", "город",
  "мочь", "хотеть", "вода", "огонь", "земля", "небо", "дорога", "голова", "сила", "море", "ветер",
  "поле", "гора", "свет", "ночь", "утро", "вечер", "солнце", "луна", "звезда", "дождь", "снег",
  "сердце", "рука", "нога", "губа", "ухо", "нос", "волос", "кожа", "кровь", "кость", "мозг",
  "душа", "тело", "рот", "зуб", "язык", "сон", "бежать", "идти", "ехать", "лететь", "плыть",
  "расти", "пасть", "стоять", "сидеть", "лежать", "спать", "есть", "пить", "видеть", "слышать",
  "знать", "думать", "понимать", "любить", "ненавидеть", "хотеть", "мочь", "должен", "нужно",
  "надо", "можно", "нельзя", "важно", "хорошо", "плохо", "большой", "маленький", "длинный", "короткий",
  "высокий", "низкий", "быстрый", "медленный", "красивый", "уродливый", "умный", "глупый", "добрый",
  "злой", "смелый", "трусливый", "храбрый", "сильный", "слабый", "здоровый", "больной", "богатый",
  "бедный", "молодой", "старый", "живой", "мёртвый", "горячий", "холодный", "тёплый", "прохладный",
  "сухой", "мокрый", "чистый", "грязный", "светлый", "тёмный", "яркий", "тусклый", "белый", "чёрный",
  "красный", "синий", "зелёный", "жёлтый", "оранжевый", "фиолетовый"
]

def conjunctions_ru : List String := [
  "и", "а", "но", "или", "однако", "тем", "не", "менее", "же", "если", "когда", "пока", "поскольку",
  "так", "как", "будто", "что", "чтобы", "зачем", "потому", "что", "поэтому", "отчего", "хотя",
  "несмотря", "на", "то", "либо", "ни", "иначе", "впрочем", "между", "тем", "не", "менее", "если",
  "ли", "ежели", "коль", "пусть", "раз", "хоть", "хотя", "уж"
]

def short_ru : List String := [
  "а", "и", "о", "у", "я", "ю", "э", "е", "ё", "ъ", "ь", "бы", "же", "ли", "но", "не", "на",
  "нет", "она", "она", "он", "то", "у", "уже", "я", "все", "для", "как", "мой", "наш", "свой",
  "такой", "этот", "тот", "что", "это", "год", "день", "ночь", "мир", "дом", "вот", "тут", "раз",
  "два", "три", "чуть", "лишь", "много", "надо", "нужно", "можно", "весь", "весь", "весь"
]

def phrases_ru : List String := [
  "доброе утро", "хорошего дня", "увидимся позже", "большое спасибо", "извини пожалуйста", "нет проблем",
  "это правильно", "я в порядке", "что нового", "ничего особенного", "как всегда", "все хорошо",
  "язык программирования", "разработка программного обеспечения", "машинное обучение", "искусственный интеллект",
  "наука о данных", "веб разработка", "мобильное приложение", "пользовательский интерфейс", "пользовательский опыт",
  "операционная система", "информатика", "информационные технологии", "безопасность сети", "облачные вычисления",
  "управление базами данных", "системная архитектура", "ревью кода", "контроль версий", "непрерывная интеграция",
  "фреймворк тестирования", "инструмент отладки", "среда разработки", "сервер для продакшена"
]

def additional_ru : List String := [
  "яблоко", "банан", "апельсин", "виноград", "манго", "ананас", "персик", "компьютер", "ноутбук",
  "клавиатура", "мышь", "монитор", "принтер", "сканер", "интернет", "вайфай", "блютус", "сеть",
  "сервер", "база данных", "облако", "программа", "код", "разработка", "тест", "отладка", "свифт",
  "питон", "джава", "джаваскрипт", "раст", "го", "руби", "пхп", "гитхаб", "гит", "докер", "кубернетес",
  "линукс", "виндоус", "макос", "айос", "андроид", "мобила", "веб", "апи", "рест", "джейсон",
  "эксэмэль", "хтмл", "цсс", "безопасность", "конфиденциальность", "права", "доступ", "контроль",
  "пользователь", "админ", "логин", "пароль", "почта", "адрес", "телефон", "контакт", "сообщение",
  "лимон", "лайм", "вишня", "ягодка", "дыня", "киви", "папайя", "кокос", "авокадо", "гуава",
  "мангостин", "маракуйя", "томат", "картофель", "морковь", "огурец", "перец", "лук", "чеснок",
  "брокколи", "капуста", "шпинат", "салат", "сельдерей", "свёкла", "собака", "кошка", "птица",
  "рыба", "лошадь", "корова", "свинья", "овца", "курица", "утка", "гусь", "кролик", "олень",
  "медведь", "волк", "лиса", "роза", "тюльпан", "маргаритка", "лилия", "подсолнух", "орхидея",
  "лотос", "жасмин", "лаванда", "одуванчик", "нарцисс", "бархатцы", "блокчейн", "криптовалюта",
  "нфт", "метавсел", "искусственный", "нейросеть", "алгоритм", "автоматизация", "робот", "машина",
  "интеллект", "обучение", "пицца", "бургер", "суши", "паста", "лапша", "рис", "хлеб", "торт",
  "печенье", "шоколад", "кофе", "чай", "сок", "вода", "газировка", "пиво", "машина", "автобус",
  "поезд", "самолёт", "корабль", "велосипед", "мотоцикл", "скутер", "метро", "такси", "убер",
  "грузовик", "фургон", "лодка", "яхта", "вертолёт", "рубашка", "штаны", "платье", "юбка", "пальто",
  "пиджак", "туфли", "сапоги", "шляпа", "кепка", "шарф", "перчатки", "носки", "ремень", "галстук",
  "униформа", "футбол", "баскетбол", "волейбол", "теннис", "плавание", "бег", "прыжки", "танцы",
  "пение", "хоккей", "гольф", "бокс", "борьба", "гимнастика", "рок", "поп", "джаз", "блюз", "классика",
  "кантри", "рэп", "хипхоп", "электроника", "техно", "хаус", "транс", "эмбиент", "фолк", "регги",
  "солнечно", "дождливо", "облачно", "ветрено", "снежно", "штормит", "туманно", "дымно", "ветрено",
  "влажно", "сухо", "мокро", "жарко", "холодно", "тепло", "прохладно", "утро", "день", "вечер",
  "ночь", "полночь", "рассвет", "закат", "сумерки", "рассвет", "закат", "дневной свет", "тьма",
  "солнце", "лунный свет"
]


end Exp
namespace Base

/-- The Latin keyboard row string `en_layout` of the base generator
(source line 107); the brace and quote characters are written with
escapes. -/
def en_layout : String := "qwertyuiop[]asdfghjkl;\x27zxcvbnm,./QWERTYUIOP\x7b\x7dASDFGHJKL:\"ZXCVBNM<>?"

/-- The Cyrillic keyboard row string `ru_layout` of the base generator
(source line 108). -/
def ru_layout : String := "йцукенгшщзхъфывапролджэячсмитьбю.ЙЦУКЕНГШЩЗХЪФЫВАПРОЛДЖЭЯЧСМИТЬБЮ,"

/-- One step of `convert_to_wrong_layout` (source lines 113-121): the
body of the `for char in russian_text` loop, which appends exactly one
character per input character. -/
def convChar (c : Char) : Char :=
  if c ∈ ru_layout.data then
    let i := ru_layout.data.indexOf c
    if i < en_layout.data.length then en_layout.data.getD i c else c
  else c

/-- `convert_to_wrong_layout` (source lines 110-122): builds the result
by appending one character per input character, i.e. a character map. -/
def convert_to_wrong_layout (russian_text : String) : String :=
  ⟨russian_text.data.map convChar⟩

/-- Python `str.lower` restricted to the character ranges that occur in
this program: ASCII letters and Cyrillic letters. -/
def pyLowerChar (c : Char) : Char :=
  if 'A' ≤ c ∧ c ≤ 'Z' then Char.ofNat (c.toNat + 32)
  else if 'А' ≤ c ∧ c ≤ 'Я' then Char.ofNat (c.toNat + 32)
  else if c = 'Ё' then 'ё' else c

/-- Python `str.lower` as a character map. -/
def pyLower (s : String) : String := ⟨s.data.map pyLowerChar⟩

/-- The filtered pool `short_russian_words` of source line 226:
words of `russian_words` whose length is between 3 and 8, first 100. -/
def short_russian_words : List String :=
  (russian_words.filter (fun w => 3 ≤ w.length && w.length ≤ 8)).take 100

/-- The common shape of every generation loop of `generate_dataset`
(source lines 146-237): for each item, possibly append one example to
the dataset, then stop as soon as the dataset has reached
`target_count` (the quota test comes after the append, as in the
Python `for` bodies). -/
def optLoop (g : α → Option β) (tc : Nat) : List α → List β → List β
  | [], ds => ds
  | w :: ws, ds =>
    let ds' := ds ++ (g w).toList
    if tc ≤ ds'.length then ds' else optLoop g tc ws ds'

/-- Body of the first `ru_wrong` loop (source lines 159-165): keep the
conversion only if it differs from the word and has length above 2. -/
def ruWrongWordStep (word : String) : Option (String × String) :=
  let wrong := convert_to_wrong_layout word
  if wrong ≠ word ∧ 2 < wrong.length then some (pyLower wrong, "ru_wrong") else none

/-- Body of the converted-phrases loop (source lines 214-219): keep the
conversion only if it differs from the phrase (no length test here). -/
def ruWrongPhraseStep (phrase : String) : Option (String × String) :=
  let wrong := convert_to_wrong_layout phrase
  if wrong ≠ phrase then some (pyLower wrong, "ru_wrong") else none

/-- Body of iteration `i` of the random-combination loop (source lines
228-235): two draws from `short_russian_words` (modelled as
`choice (2*i)` and `choice (2*i+1)`) joined by a space, kept when the
conversion changed the text. -/
def comboStep (choice : Nat → String) (i : Nat) : Option (String × String) :=
  if 2 ≤ short_russian_words.length then
    let phrase := choice (2*i) ++ " " ++ choice (2*i+1)
    let wrong := convert_to_wrong_layout phrase
    if wrong ≠ phrase then some (pyLower wrong, "ru_wrong") else none
  else none

/-- What the spec's rejection policy promises about a `ru_wrong`
example: it is the (lowercased) conversion of some source text that the
conversion actually changed, and it is longer than 2 characters. -/
def RuWrongOK (p : String × String) : Prop :=
  p.2 = "ru_wrong" →
    3 ≤ p.1.length ∧
      ∃ w, p.1 = pyLower (convert_to_wrong_layout w) ∧ convert_to_wrong_layout w ≠ w

/-- English-words loop, source lines 146-149. -/
def stageEn (tc : Nat) (ds : List (String × String)) : List (String × String) :=
  optLoop (fun w => some (pyLower w, "en")) tc english_words ds

/-- Russian-words loop, source lines 152-155. -/
def stageRu (tc : Nat) (ds : List (String × String)) : List (String × String) :=
  optLoop (fun w => some (w, "ru")) tc russian_words ds

/-- First `ru_wrong` loop over `russian_words[:250]`, source lines 158-165. -/
def stageWrong (tc : Nat) (ds : List (String × String)) : List (String × String) :=
  optLoop ruWrongWordStep tc (russian_words.take 250) ds

/-- English-phrases block, guarded by `len(dataset) < target_count`,
source lines 168-184. -/
def stageEnPh (tc : Nat) (ds : List (String × String)) : List (String × String) :=
  if ds.length < tc then optLoop (fun w => some (pyLower w, "en")) tc en_phrases ds else ds

/-- Russian-phrases block, guarded, source lines 186-201. -/
def stageRuPh (tc : Nat) (ds : List (String × String)) : List (String × String) :=
  if ds.length < tc then optLoop (fun w => some (w, "ru")) tc ru_phrases ds else ds

/-- Converted-phrases block, guarded, source lines 203-219. -/
def stageWrongPh (tc : Nat) (ds : List (String × String)) : List (String × String) :=
  if ds.length < tc then optLoop ruWrongPhraseStep tc ru_phrases_to_convert ds else ds

/-- Random-combinations block, guarded, source lines 222-237
(`for i in range(50)`). -/
def stageCombo (choice : Nat → String) (tc : Nat) (ds : List (String × String)) :
    List (String × String) :=
  if ds.length < tc then optLoop (comboStep choice) tc (List.range 50) ds else ds

/-- `generate_dataset` (source lines 124-239): starts from the 30
curated `original_data` pairs (extended unconditionally, line 143) and
runs the source blocks in order. -/
def generate_dataset (choice : Nat → String) (target_count : Nat) : List (String × String) :=
  stageCombo choice target_count
    (stageWrongPh target_count
      (stageRuPh target_count
        (stageEnPh target_count
          (stageWrong target_count
            (stageRu target_count
              (stageEn target_count original_data))))))

/-- A full run of the base generator: `generate_dataset` first executes
`random.seed(42)` (source line 225), which discards whatever state
`priorState` the process-global generator had and replaces it by the
state determined by the constant 42; `prng seed` models the stream of
`random.choice` draws produced from a given seed. -/
def run42 (prng : Nat → Nat → String) (_priorState : Nat) (target_count : Nat) :
    List (String × String) :=
  generate_dataset (prng 42) target_count

end Base

namespace Exp

/-- The 30-character Cyrillic string of `layout_switch_ru_to_en`
(source line 133). -/
def ru_layout : String := "йцукенгшщзхфывапролджэячсмитбю"

/-- The 30-character Latin string of `layout_switch_ru_to_en`
(source line 134). -/
def en_layout : String := "qwertyuiop[]fghjkl;\x27zxcvbnm,./"

/-- One character of `str.translate` with `str.maketrans(ru_layout,
en_layout)` (source lines 135-136): a character occurring in
`ru_layout` (no duplicates) is replaced by the `en_layout` character at
the same position, every other character is kept. -/
def switchChar (c : Char) : Char :=
  if c ∈ ru_layout.data then en_layout.data.getD (ru_layout.data.indexOf c) c else c

/-- `layout_switch_ru_to_en` (source lines 127-136). -/
def layout_switch_ru_to_en (text : String) : String :=
  ⟨text.data.map switchChar⟩

/-- `for _ in range(12): for word in l[:250]` (source lines 143-145 and
212-214). -/
def rep12 (l : List String) : List String := (List.replicate 12 (l.take 250)).flatten

/-- Attach a label to every word of a list. -/
def lab (label : String) (ws : List String) : List (String × String) :=
  ws.map (fun w => (w, label))

/-- `all_ru_words = popular_ru + additional_ru` (source line 281). -/
def all_ru_words : List String := popular_ru ++ additional_ru

/-- The dataset assembled by `generate_dataset` before the final
shuffle (source lines 139-285), with the outcome of
`random.sample(all_ru_words, min(1000, len(all_ru_words)))` passed in
as `sample` (the requested size equals the pool size here, so the
sample is a permutation of `all_ru_words`). -/
def datasetPre (sample : List String) : List (String × String) :=
  lab "en" (rep12 popular_en) ++ lab "en" conjunctions_en ++ lab "en" short_en ++
    lab "en" phrases_en ++ lab "en" additional_en ++
  lab "ru" (rep12 popular_ru) ++ lab "ru" conjunctions_ru ++ lab "ru" short_ru ++
    lab "ru" phrases_ru ++ lab "ru" additional_ru ++
  sample.map (fun w => (layout_switch_ru_to_en w, "ru_wrong"))

/-- `generate_dataset` of the expanded generator (source lines
138-291): assemble, shuffle (`random.shuffle`, modelled by the
`shuffle` parameter), truncate to 5000. -/
def generate_dataset (sample : List String)
    (shuffle : List (String × String) → List (String × String)) : List (String × String) :=
  (shuffle (datasetPre sample)).take 5000

/-- One outcome of the unseeded process-global RNG used by the expanded
generator: the value of the `random.sample` call and the permutation
applied by `random.shuffle`, together with the facts Python guarantees
about them (both are permutations). -/
structure Rng where
  sample : List String
  shuffle : List (String × String) → List (String × String)
  sample_perm : sample.Perm all_ru_words
  shuffle_perm : ∀ l, (shuffle l).Perm l

/-- A full run of the expanded generator under RNG outcome `r`.  The
script never seeds the global generator, so `r` varies from run to
run. -/
def runExp (r : Rng) : List (String × String) := generate_dataset r.sample r.shuffle

end Exp

namespace Writer

/-- One data row of `save_dataset` of the base generator (source lines
245-248): the text is wrapped in double quotes iff it contains a comma,
and nothing else is escaped. -/
def base_row (text label : String) : String :=
  (if ',' ∈ text.data then "\"" ++ text ++ "\"" else text) ++ "," ++ label ++ "\n"

/-- Quoting test of Python's `csv.writer` with the default dialect
(`QUOTE_MINIMAL`), used by the expanded generator's `main` (source
lines 300-303): a field is quoted iff it contains the delimiter, the
quote character, or a CR/LF. -/
def needsQuote (s : String) : Bool :=
  s.data.any (fun c => c == ',' || c == '"' || c == '\r' || c == '\n')

/-- Quote-doubling of Python's `csv.writer`: every quote character in a
quoted field is doubled. -/
def csvEscape (s : String) : String :=
  ⟨s.data.foldr (fun c acc => if c = '"' then '"' :: '"' :: acc else c :: acc) []⟩

/-- One field as written by Python's `csv.writer` (default dialect). -/
def csvField (s : String) : String :=
  if needsQuote s then "\"" ++ csvEscape s ++ "\"" else s

/-- One data row of the expanded generator's writer (source line 303):
`csv.writer.writerow`, default dialect, CRLF line terminator. -/
def csv_row (text label : String) : String :=
  csvField text ++ "," ++ csvField label ++ "\r\n"

end Writer

namespace Base

/-- The conversion step with the (unreachable, see C9) bounds-check
fallback removed: a mapped character is always replaced. -/
def convCharTotal (c : Char) : Char :=
  if c ∈ ru_layout.data then en_layout.data.getD (ru_layout.data.indexOf c) c else c

end Base

/-- Swap of the first two elements of a list: one concrete permutation
that `random.shuffle` can produce. -/
def swapTwo : List α → List α
  | a :: b :: t => b :: a :: t
  | l => l

namespace Exp

/-- One possible outcome of the unseeded RNG of the expanded generator:
`random.sample` returns the pool in its original order and
`random.shuffle` leaves the dataset unchanged. -/
def rngA : Rng :=
  ⟨all_ru_words, id, List.Perm.refl _, fun _ => List.Perm.refl _⟩

/-- Another possible outcome: same sample, but the shuffle swaps the
first two examples. -/
def rngB : Rng :=
  ⟨all_ru_words, swapTwo, List.Perm.refl _, fun l => by
    match l with
    | [] => exact List.Perm.refl _
    | [a] => exact List.Perm.refl _
    | a :: b :: t => exact List.Perm.swap a b t⟩

/-- A third possible outcome: the sample puts the one-letter word "и"
last, and the shuffle reverses the dataset, bringing the last assembled
ru_wrong example to the front. -/
def rngC : Rng :=
  ⟨all_ru_words.erase "и" ++ ["и"],
   fun l => l.reverse,
   (List.perm_append_singleton _ _).trans
     (List.perm_cons_erase (by decide : "и" ∈ all_ru_words)).symm,
   fun l => List.reverse_perm l⟩

end Exp


end Babylonfish

namespace Babylonfish

/-! ## Helper lemmas -/

theorem length_mk_map (f : Char → Char) (s : String) :
    (⟨s.data.map f⟩ : String).length = s.length := by
  show (s.data.map f).length = s.data.length
  exact List.length_map s.data f

theorem Base.pyLower_length (s : String) : (Base.pyLower s).length = s.length :=
  length_mk_map _ s

theorem Base.convert_length (s : String) :
    (Base.convert_to_wrong_layout s).length = s.length :=
  length_mk_map _ s

theorem Exp.switch_length (s : String) :
    (Exp.layout_switch_ru_to_en s).length = s.length :=
  length_mk_map _ s

theorem Base.ru_index_lt :
    ∀ c ∈ Base.ru_layout.data, Base.ru_layout.data.indexOf c < Base.en_layout.data.length := by
  decide

theorem Base.convChar_eq_total : Base.convChar = Base.convCharTotal := by
  funext c
  unfold Base.convChar Base.convCharTotal
  by_cases h : c ∈ Base.ru_layout.data
  · rw [if_pos h, if_pos h, if_pos (Base.ru_index_lt c h)]
  · rw [if_neg h, if_neg h]

theorem unmapped_getD (table : List Char) (f : Char → Char)
    (hf : ∀ c, c ∉ table → f c = c) (s : String) (i : Nat)
    (h : s.data.getD i ' ' ∉ table) :
    (⟨s.data.map f⟩ : String).data.getD i ' ' = s.data.getD i ' ' := by
  show (s.data.map f).getD i ' ' = s.data.getD i ' '
  by_cases hi : i < s.data.length
  · rw [List.getD_eq_get _ _ hi] at h ⊢
    rw [List.getD_eq_get _ _ (by simpa using hi)]
    rw [List.get_map]
    exact hf _ h
  · rw [List.getD_eq_default _ _ (by simpa using Nat.le_of_not_lt hi),
      List.getD_eq_default _ _ (Nat.le_of_not_lt hi)]

end Babylonfish

namespace Babylonfish

/-! ## Loop lemmas -/

theorem length_append_opt (ds : List β) (o : Option β) :
    ds.length ≤ (ds ++ o.toList).length ∧ (ds ++ o.toList).length ≤ ds.length + 1 := by
  cases o <;> simp

theorem Base.optLoop_eq_append (g : α → Option β) (tc : Nat) :
    ∀ (ws : List α) (ds : List β), ∃ t, Base.optLoop g tc ws ds = ds ++ t
  | [], ds => ⟨[], by simp [Base.optLoop]⟩
  | w :: ws, ds => by
    simp only [Base.optLoop]
    split
    · exact ⟨(g w).toList, rfl⟩
    · obtain ⟨t, ht⟩ := Base.optLoop_eq_append g tc ws (ds ++ (g w).toList)
      exact ⟨(g w).toList ++ t, by rw [ht, List.append_assoc]⟩

theorem Base.optLoop_length_le (g : α → Option β) (tc : Nat) :
    ∀ (ws : List α) (ds : List β), ds.length < tc → (Base.optLoop g tc ws ds).length ≤ tc
  | [], _, h => Nat.le_of_lt h
  | w :: ws, ds, h => by
    simp only [Base.optLoop]
    obtain ⟨h1, h2⟩ := length_append_opt ds (g w)
    split
    · omega
    · next hlt => exact Base.optLoop_length_le g tc ws _ (Nat.lt_of_not_le hlt)

theorem Base.optLoop_length_bound (g : α → Option β) (tc : Nat) :
    ∀ (ws : List α) (ds : List β), (Base.optLoop g tc ws ds).length ≤ max tc (ds.length + 1)
  | [], ds => by simp only [Base.optLoop]; omega
  | w :: ws, ds => by
    simp only [Base.optLoop]
    obtain ⟨h1, h2⟩ := length_append_opt ds (g w)
    split
    · omega
    · next hlt =>
      have hrec := Base.optLoop_length_bound g tc ws (ds ++ (g w).toList)
      omega

theorem Base.optLoop_mem (g : α → Option β) (tc : Nat) :
    ∀ (ws : List α) (ds : List β) (p : β),
      p ∈ Base.optLoop g tc ws ds → p ∈ ds ∨ ∃ w ∈ ws, g w = some p
  | [], ds, p, h => Or.inl (by simpa [Base.optLoop] using h)
  | w :: ws, ds, p, h => by
    simp only [Base.optLoop] at h
    split at h
    · rcases List.mem_append.mp h with h' | h'
      · exact Or.inl h'
      · exact Or.inr ⟨w, List.mem_cons_self w ws, Option.mem_toList.mp h'⟩
    · rcases Base.optLoop_mem g tc ws _ p h with h' | ⟨w', hw', hg⟩
      · rcases List.mem_append.mp h' with h'' | h''
        · exact Or.inl h''
        · exact Or.inr ⟨w, List.mem_cons_self w ws, Option.mem_toList.mp h''⟩
      · exact Or.inr ⟨w', List.mem_cons_of_mem _ hw', hg⟩

theorem guarded_bound (tc : Nat) (ds : List β) (F : List β → List β)
    (hF : ds.length < tc → (F ds).length ≤ tc) :
    (if ds.length < tc then F ds else ds).length ≤ max tc ds.length := by
  split
  · exact le_trans (hF ‹_›) (Nat.le_max_left _ _)
  · exact Nat.le_max_right _ _

theorem guarded_append (tc : Nat) (ds : List β) (F : List β → List β)
    (hF : ∃ t, F ds = ds ++ t) :
    ∃ t, (if ds.length < tc then F ds else ds) = ds ++ t := by
  split
  · exact hF
  · exact ⟨[], by simp⟩

theorem guarded_pres (tc : Nat) (ds : List β) (F : List β → List β) (Q : β → Prop)
    (hds : ∀ p ∈ ds, Q p) (hF : ∀ p ∈ F ds, Q p) :
    ∀ p ∈ (if ds.length < tc then F ds else ds), Q p := by
  split
  · exact hF
  · exact hds

theorem Base.optLoop_pres (g : α → Option β) (tc : Nat) (ws : List α) (ds : List β)
    (Q : β → Prop) (hds : ∀ p ∈ ds, Q p)
    (hg : ∀ w ∈ ws, ∀ p, g w = some p → Q p) :
    ∀ p ∈ Base.optLoop g tc ws ds, Q p := by
  intro p hp
  rcases Base.optLoop_mem g tc ws ds p hp with h | ⟨w, hw, hgw⟩
  · exact hds p h
  · exact hg w hw p hgw

end Babylonfish

namespace Babylonfish

/-! ## Per-stage facts for the base generator -/

theorem Base.stageEn_bound (tc : Nat) (ds : List (String × String)) :
    (Base.stageEn tc ds).length ≤ max tc (ds.length + 1) :=
  Base.optLoop_length_bound _ tc _ ds

theorem Base.stageRu_bound (tc : Nat) (ds : List (String × String)) :
    (Base.stageRu tc ds).length ≤ max tc (ds.length + 1) :=
  Base.optLoop_length_bound _ tc _ ds

theorem Base.stageWrong_bound (tc : Nat) (ds : List (String × String)) :
    (Base.stageWrong tc ds).length ≤ max tc (ds.length + 1) :=
  Base.optLoop_length_bound _ tc _ ds

theorem Base.stageEnPh_bound (tc : Nat) (ds : List (String × String)) :
    (Base.stageEnPh tc ds).length ≤ max tc ds.length :=
  guarded_bound tc ds _ (fun h => Base.optLoop_length_le _ tc _ ds h)

theorem Base.stageRuPh_bound (tc : Nat) (ds : List (String × String)) :
    (Base.stageRuPh tc ds).length ≤ max tc ds.length :=
  guarded_bound tc ds _ (fun h => Base.optLoop_length_le _ tc _ ds h)

theorem Base.stageWrongPh_bound (tc : Nat) (ds : List (String × String)) :
    (Base.stageWrongPh tc ds).length ≤ max tc ds.length :=
  guarded_bound tc ds _ (fun h => Base.optLoop_length_le _ tc _ ds h)

theorem Base.stageCombo_bound (choice : Nat → String) (tc : Nat) (ds : List (String × String)) :
    (Base.stageCombo choice tc ds).length ≤ max tc ds.length :=
  guarded_bound tc ds _ (fun h => Base.optLoop_length_le _ tc _ ds h)

/-- The dataset length after all blocks is at most `max (tc+2) 33`: the
length can pass `tc` only because a block tests the quota after its
first append. -/
theorem Base.gen_length_bound (choice : Nat → String) (tc : Nat) :
    (Base.generate_dataset choice tc).length ≤ max (tc + 2) 33 := by
  have e0 : Base.original_data.length = 30 := rfl
  have h1 := Base.stageEn_bound tc Base.original_data
  have h2 := Base.stageRu_bound tc (Base.stageEn tc Base.original_data)
  have h3 := Base.stageWrong_bound tc
    (Base.stageRu tc (Base.stageEn tc Base.original_data))
  have h4 := Base.stageEnPh_bound tc
    (Base.stageWrong tc (Base.stageRu tc (Base.stageEn tc Base.original_data)))
  have h5 := Base.stageRuPh_bound tc
    (Base.stageEnPh tc
      (Base.stageWrong tc (Base.stageRu tc (Base.stageEn tc Base.original_data))))
  have h6 := Base.stageWrongPh_bound tc
    (Base.stageRuPh tc
      (Base.stageEnPh tc
        (Base.stageWrong tc (Base.stageRu tc (Base.stageEn tc Base.original_data)))))
  have h7 := Base.stageCombo_bound choice tc
    (Base.stageWrongPh tc
      (Base.stageRuPh tc
        (Base.stageEnPh tc
          (Base.stageWrong tc (Base.stageRu tc (Base.stageEn tc Base.original_data))))))
  unfold Base.generate_dataset
  omega

theorem Base.stageEn_app (tc : Nat) (ds : List (String × String)) :
    ∃ t, Base.stageEn tc ds = ds ++ t :=
  Base.optLoop_eq_append _ tc _ ds

theorem Base.stageRu_app (tc : Nat) (ds : List (String × String)) :
    ∃ t, Base.stageRu tc ds = ds ++ t :=
  Base.optLoop_eq_append _ tc _ ds

theorem Base.stageWrong_app (tc : Nat) (ds : List (String × String)) :
    ∃ t, Base.stageWrong tc ds = ds ++ t :=
  Base.optLoop_eq_append _ tc _ ds

theorem Base.stageEnPh_app (tc : Nat) (ds : List (String × String)) :
    ∃ t, Base.stageEnPh tc ds = ds ++ t :=
  guarded_append tc ds _ (Base.optLoop_eq_append _ tc _ ds)

theorem Base.stageRuPh_app (tc : Nat) (ds : List (String × String)) :
    ∃ t, Base.stageRuPh tc ds = ds ++ t :=
  guarded_append tc ds _ (Base.optLoop_eq_append _ tc _ ds)

theorem Base.stageWrongPh_app (tc : Nat) (ds : List (String × String)) :
    ∃ t, Base.stageWrongPh tc ds = ds ++ t :=
  guarded_append tc ds _ (Base.optLoop_eq_append _ tc _ ds)

theorem Base.stageCombo_app (choice : Nat → String) (tc : Nat) (ds : List (String × String)) :
    ∃ t, Base.stageCombo choice tc ds = ds ++ t :=
  guarded_append tc ds _ (Base.optLoop_eq_append _ tc _ ds)

/-- Every block only appends, so the curated `original_data` pairs stay
at the front of the result. -/
theorem Base.gen_extends (choice : Nat → String) (tc : Nat) :
    ∃ t, Base.generate_dataset choice tc = Base.original_data ++ t := by
  unfold Base.generate_dataset
  obtain ⟨t1, e1⟩ := Base.stageEn_app tc Base.original_data
  rw [e1]
  obtain ⟨t2, e2⟩ := Base.stageRu_app tc (Base.original_data ++ t1)
  rw [e2]
  obtain ⟨t3, e3⟩ := Base.stageWrong_app tc (Base.original_data ++ t1 ++ t2)
  rw [e3]
  obtain ⟨t4, e4⟩ := Base.stageEnPh_app tc (Base.original_data ++ t1 ++ t2 ++ t3)
  rw [e4]
  obtain ⟨t5, e5⟩ := Base.stageRuPh_app tc (Base.original_data ++ t1 ++ t2 ++ t3 ++ t4)
  rw [e5]
  obtain ⟨t6, e6⟩ := Base.stageWrongPh_app tc
    (Base.original_data ++ t1 ++ t2 ++ t3 ++ t4 ++ t5)
  rw [e6]
  obtain ⟨t7, e7⟩ := Base.stageCombo_app choice tc
    (Base.original_data ++ t1 ++ t2 ++ t3 ++ t4 ++ t5 ++ t6)
  rw [e7]
  exact ⟨t1 ++ t2 ++ t3 ++ t4 ++ t5 ++ t6 ++ t7, by simp [List.append_assoc]⟩

end Babylonfish

namespace Babylonfish

/-! ## ru_wrong entries of the base generator -/

theorem Base.seed_wrong_cases :
    ∀ p ∈ Base.original_data, p.2 = "ru_wrong" →
      p ∈ [(("ghbdtn" : String), ("ru_wrong" : String)), ("rfr ltkf", "ru_wrong"),
        ("ntcn", "ru_wrong"), ("fggkt", "ru_wrong")] := by
  decide

theorem Base.seed_ok : ∀ p ∈ Base.original_data, Base.RuWrongOK p := by
  intro p hp h
  have hc := Base.seed_wrong_cases p hp h
  simp only [List.mem_cons, List.not_mem_nil, or_false] at hc
  rcases hc with rfl | rfl | rfl | rfl
  · exact ⟨by decide, "привет", by decide, by decide⟩
  · exact ⟨by decide, "как дела", by decide, by decide⟩
  · exact ⟨by decide, "тест", by decide, by decide⟩
  · exact ⟨by decide, "аппле", by decide, by decide⟩

theorem Base.en_ok (w : String) : Base.RuWrongOK (Base.pyLower w, "en") := by
  intro h
  exact absurd (show ("en" : String) = "ru_wrong" from h) (by decide)

theorem Base.ru_ok (w : String) : Base.RuWrongOK (w, "ru") := by
  intro h
  exact absurd (show ("ru" : String) = "ru_wrong" from h) (by decide)

theorem Base.wrongWord_ok (w : String) (p : String × String)
    (h : Base.ruWrongWordStep w = some p) : Base.RuWrongOK p := by
  simp only [Base.ruWrongWordStep] at h
  split_ifs at h with hc
  · obtain ⟨hne, hlen⟩ := hc
    have h' := Option.some.inj h
    subst h'
    intro _
    have hl := Base.pyLower_length (Base.convert_to_wrong_layout w)
    refine ⟨?_, w, rfl, hne⟩
    show 3 ≤ (Base.pyLower (Base.convert_to_wrong_layout w)).length
    omega

theorem Base.phrases_len : ∀ w ∈ Base.ru_phrases_to_convert, 3 ≤ w.length := by
  decide

theorem Base.wrongPhrase_ok (w : String) (hw : w ∈ Base.ru_phrases_to_convert)
    (p : String × String) (h : Base.ruWrongPhraseStep w = some p) : Base.RuWrongOK p := by
  simp only [Base.ruWrongPhraseStep] at h
  split_ifs at h with hc
  · have h' := Option.some.inj h
    subst h'
    intro _
    have hl := Base.pyLower_length (Base.convert_to_wrong_layout w)
    have hcl := Base.convert_length w
    have hwl := Base.phrases_len w hw
    refine ⟨?_, w, rfl, hc⟩
    show 3 ≤ (Base.pyLower (Base.convert_to_wrong_layout w)).length
    omega

theorem Base.srw_len : ∀ w ∈ Base.short_russian_words, 3 ≤ w.length := by
  decide

theorem Base.combo_ok (choice : Nat → String)
    (hch : ∀ n, choice n ∈ Base.short_russian_words) (i : Nat) (p : String × String)
    (h : Base.comboStep choice i = some p) : Base.RuWrongOK p := by
  simp only [Base.comboStep] at h
  split_ifs at h with h2 hne
  · have h' := Option.some.inj h
    subst h'
    intro _
    have hl := Base.pyLower_length
      (Base.convert_to_wrong_layout (choice (2*i) ++ " " ++ choice (2*i+1)))
    have hcl := Base.convert_length (choice (2*i) ++ " " ++ choice (2*i+1))
    have hwl := Base.srw_len (choice (2*i)) (hch (2*i))
    have hsp : (" " : String).length = 1 := rfl
    have happ : (choice (2*i) ++ " " ++ choice (2*i+1)).length =
        (choice (2*i)).length + 1 + (choice (2*i+1)).length := by
      simp [String.length_append, hsp]
    refine ⟨?_, choice (2*i) ++ " " ++ choice (2*i+1), rfl, hne⟩
    show 3 ≤ (Base.pyLower
      (Base.convert_to_wrong_layout (choice (2*i) ++ " " ++ choice (2*i+1)))).length
    omega

theorem Base.stageEn_pres (tc : Nat) (ds : List (String × String))
    (h : ∀ p ∈ ds, Base.RuWrongOK p) : ∀ p ∈ Base.stageEn tc ds, Base.RuWrongOK p :=
  Base.optLoop_pres _ tc _ ds _ h (fun w _ p hp => by
    have h' := Option.some.inj hp
    subst h'
    exact Base.en_ok w)

theorem Base.stageRu_pres (tc : Nat) (ds : List (String × String))
    (h : ∀ p ∈ ds, Base.RuWrongOK p) : ∀ p ∈ Base.stageRu tc ds, Base.RuWrongOK p :=
  Base.optLoop_pres _ tc _ ds _ h (fun w _ p hp => by
    have h' := Option.some.inj hp
    subst h'
    exact Base.ru_ok w)

theorem Base.stageWrong_pres (tc : Nat) (ds : List (String × String))
    (h : ∀ p ∈ ds, Base.RuWrongOK p) : ∀ p ∈ Base.stageWrong tc ds, Base.RuWrongOK p :=
  Base.optLoop_pres _ tc _ ds _ h (fun w _ p hp => Base.wrongWord_ok w p hp)

theorem Base.stageEnPh_pres (tc : Nat) (ds : List (String × String))
    (h : ∀ p ∈ ds, Base.RuWrongOK p) : ∀ p ∈ Base.stageEnPh tc ds, Base.RuWrongOK p :=
  guarded_pres tc ds _ _ h (Base.optLoop_pres _ tc _ ds _ h (fun w _ p hp => by
    have h' := Option.some.inj hp
    subst h'
    exact Base.en_ok w))

theorem Base.stageRuPh_pres (tc : Nat) (ds : List (String × String))
    (h : ∀ p ∈ ds, Base.RuWrongOK p) : ∀ p ∈ Base.stageRuPh tc ds, Base.RuWrongOK p :=
  guarded_pres tc ds _ _ h (Base.optLoop_pres _ tc _ ds _ h (fun w _ p hp => by
    have h' := Option.some.inj hp
    subst h'
    exact Base.ru_ok w))

theorem Base.stageWrongPh_pres (tc : Nat) (ds : List (String × String))
    (h : ∀ p ∈ ds, Base.RuWrongOK p) : ∀ p ∈ Base.stageWrongPh tc ds, Base.RuWrongOK p :=
  guarded_pres tc ds _ _ h
    (Base.optLoop_pres _ tc _ ds _ h (fun w hw p hp => Base.wrongPhrase_ok w hw p hp))

theorem Base.stageCombo_pres (choice : Nat → String)
    (hch : ∀ n, choice n ∈ Base.short_russian_words) (tc : Nat) (ds : List (String × String))
    (h : ∀ p ∈ ds, Base.RuWrongOK p) : ∀ p ∈ Base.stageCombo choice tc ds, Base.RuWrongOK p :=
  guarded_pres tc ds _ _ h
    (Base.optLoop_pres _ tc _ ds _ h (fun i _ p hp => Base.combo_ok choice hch i p hp))

/-- Every pair the base generator produces satisfies the ru_wrong
guarantee. -/
theorem Base.gen_ok (choice : Nat → String)
    (hch : ∀ n, choice n ∈ Base.short_russian_words) (tc : Nat) :
    ∀ p ∈ Base.generate_dataset choice tc, Base.RuWrongOK p := by
  unfold Base.generate_dataset
  exact Base.stageCombo_pres choice hch tc _
    (Base.stageWrongPh_pres tc _
      (Base.stageRuPh_pres tc _
        (Base.stageEnPh_pres tc _
          (Base.stageWrong_pres tc _
            (Base.stageRu_pres tc _
              (Base.stageEn_pres tc _ Base.seed_ok))))))

/-! ## Length of the expanded dataset -/

theorem Exp.lab_length (label : String) (ws : List String) :
    (Exp.lab label ws).length = ws.length :=
  List.length_map ws _

theorem Exp.rep12_length (l : List String) :
    (Exp.rep12 l).length = 12 * min 250 l.length := by
  simp [Exp.rep12, List.length_flatten, List.map_replicate, List.sum_replicate,
    List.length_take, Nat.smul_one_eq_cast]
  omega

set_option maxRecDepth 2000 in
theorem Exp.popular_en_length : Exp.popular_en.length = 206 := rfl

set_option maxRecDepth 2000 in
theorem Exp.conjunctions_en_length : Exp.conjunctions_en.length = 39 := rfl

set_option maxRecDepth 2000 in
theorem Exp.short_en_length : Exp.short_en.length = 62 := rfl

set_option maxRecDepth 2000 in
theorem Exp.phrases_en_length : Exp.phrases_en.length = 43 := rfl

set_option maxRecDepth 2000 in
theorem Exp.additional_en_length : Exp.additional_en.length = 238 := rfl

set_option maxRecDepth 2000 in
theorem Exp.popular_ru_length : Exp.popular_ru.length = 154 := rfl

set_option maxRecDepth 2000 in
theorem Exp.conjunctions_ru_length : Exp.conjunctions_ru.length = 44 := rfl

set_option maxRecDepth 2000 in
theorem Exp.short_ru_length : Exp.short_ru.length = 55 := rfl

set_option maxRecDepth 2000 in
theorem Exp.phrases_ru_length : Exp.phrases_ru.length = 35 := rfl

set_option maxRecDepth 2000 in
theorem Exp.additional_ru_length : Exp.additional_ru.length = 237 := rfl

theorem Exp.all_ru_words_length : Exp.all_ru_words.length = 391 := by
  rw [Exp.all_ru_words, List.length_append, Exp.popular_ru_length, Exp.additional_ru_length]

theorem Exp.datasetPre_length (sample : List String) :
    (Exp.datasetPre sample).length = 5073 + sample.length := by
  unfold Exp.datasetPre
  simp only [List.length_append, Exp.lab_length, Exp.rep12_length, List.length_map,
    Exp.popular_en_length, Exp.conjunctions_en_length, Exp.short_en_length,
    Exp.phrases_en_length, Exp.additional_en_length, Exp.popular_ru_length,
    Exp.conjunctions_ru_length, Exp.short_ru_length, Exp.phrases_ru_length,
    Exp.additional_ru_length]
  omega

/-- Whatever permutations the RNG produced, the expanded generator
returns exactly 5000 examples. -/
theorem Exp.gen_length (sample : List String)
    (shuffle : List (String × String) → List (String × String))
    (hs : ∀ l, (shuffle l).length = l.length)
    (hsam : sample.length = Exp.all_ru_words.length) :
    (Exp.generate_dataset sample shuffle).length = 5000 := by
  unfold Exp.generate_dataset
  rw [List.length_take, hs, Exp.datasetPre_length, hsam, Exp.all_ru_words_length]
  omega

theorem Exp.lab_count (label : String) (ws : List String)
    (h : (label == "ru_wrong") = false) :
    (Exp.lab label ws).countP (fun p => p.2 == "ru_wrong") = 0 := by
  rw [List.countP_eq_zero]
  intro a ha
  obtain ⟨w, _, rfl⟩ := List.mem_map.mp ha
  simpa using h

/-- The number of `ru_wrong` examples the expanded generator assembles
equals the size of the sample (not a fixed 1000). -/
theorem Exp.datasetPre_wrong_count (sample : List String) :
    (Exp.datasetPre sample).countP (fun p => p.2 == "ru_wrong") = sample.length := by
  unfold Exp.datasetPre
  simp only [List.countP_append]
  rw [Exp.lab_count "en" _ rfl, Exp.lab_count "en" _ rfl, Exp.lab_count "en" _ rfl,
    Exp.lab_count "en" _ rfl, Exp.lab_count "en" _ rfl, Exp.lab_count "ru" _ rfl,
    Exp.lab_count "ru" _ rfl, Exp.lab_count "ru" _ rfl, Exp.lab_count "ru" _ rfl,
    Exp.lab_count "ru" _ rfl]
  have hall : (sample.map (fun w => (Exp.layout_switch_ru_to_en w, "ru_wrong"))).countP
      (fun p => p.2 == "ru_wrong") =
      (sample.map (fun w => (Exp.layout_switch_ru_to_en w, "ru_wrong"))).length := by
    rw [List.countP_eq_length]
    intro a ha
    obtain ⟨w, _, rfl⟩ := List.mem_map.mp ha
    simp
  rw [hall, List.length_map]
  omega

end Babylonfish

namespace Babylonfish

/-! ## Claims -/

/-- C1 (amended): the expanded generator's result has length exactly
5000 (its sources always exceed the 5000 cap); the base generator's
result, however, is not truncated at `target_count`: every unguarded
block appends one example before testing the quota, so the length is
only bounded by `max (target_count + 2) 33`. -/
theorem c1_compose_bound :
    (∀ (choice : Nat → String) (tc : Nat),
      (Base.generate_dataset choice tc).length ≤ max (tc + 2) 33) ∧
    (∀ (sample : List String)
      (shuffle : List (String × String) → List (String × String)),
      (∀ l, (shuffle l).length = l.length) →
      sample.length = Exp.all_ru_words.length →
      (Exp.generate_dataset sample shuffle).length = 5000) :=
  ⟨Base.gen_length_bound, Exp.gen_length⟩

/-- C1 witness: the second part at the sample `all_ru_words` and the
shuffle `List.reverse`. -/
theorem c1_compose_bound_witness :
    (Exp.generate_dataset Exp.all_ru_words List.reverse).length = 5000 :=
  c1_compose_bound.2 Exp.all_ru_words List.reverse
    (fun l => List.length_reverse l) rfl

set_option maxRecDepth 20000 in
/-- C1 counterexample: `generate_dataset(0)` of the base generator
returns 33 examples, not at most 0 — the claim `length ≤ N` fails at
`N = 0`. -/
theorem c1_counterexample :
    ¬ ((Base.generate_dataset (fun _ => "") 0).length ≤ 0) := by
  decide

/-- C2 (amended): the base generator reseeds the RNG with the constant
42 inside `generate_dataset`, so its output does not depend on the
prior state of the process-global generator: any two runs agree. -/
theorem c2_determinism :
    ∀ (prng : Nat → Nat → String) (s₁ s₂ tc : Nat),
      Base.run42 prng s₁ tc = Base.run42 prng s₂ tc :=
  fun _ _ _ _ => rfl

/-- C2 counterexample: the expanded generator never seeds its RNG; two
possible RNG outcomes (identity shuffle vs swapping the first two
examples) give different outputs, so runs are not byte-identical. -/
theorem c2_counterexample : Exp.runExp Exp.rngA ≠ Exp.runExp Exp.rngB := by
  intro h
  have hA : (Exp.runExp Exp.rngA).head? = some ("the", "en") := rfl
  have hB : (Exp.runExp Exp.rngB).head? = some ("be", "en") := rfl
  rw [h, hB] at hA
  exact absurd hA (by decide)

/-- C3: both transliteration functions preserve the length of every
input string (one-to-one character substitution). -/
theorem c3_length_preserved :
    ∀ s : String, (Base.convert_to_wrong_layout s).length = s.length ∧
      (Exp.layout_switch_ru_to_en s).length = s.length :=
  fun s => ⟨Base.convert_length s, Exp.switch_length s⟩

/-- C4: a character that does not occur in the function's Cyrillic
table string is left unchanged at its position, and in particular
"hello" is returned unchanged by both functions. -/
theorem c4_unmapped_unchanged :
    (∀ (s : String) (i : Nat), i < s.length →
      s.data.getD i ' ' ∉ Base.ru_layout.data →
      (Base.convert_to_wrong_layout s).data.getD i ' ' = s.data.getD i ' ') ∧
    (∀ (s : String) (i : Nat), i < s.length →
      s.data.getD i ' ' ∉ Exp.ru_layout.data →
      (Exp.layout_switch_ru_to_en s).data.getD i ' ' = s.data.getD i ' ') ∧
    Base.convert_to_wrong_layout "hello" = "hello" ∧
    Exp.layout_switch_ru_to_en "hello" = "hello" := by
  refine ⟨?_, ?_, by decide, by decide⟩
  · intro s i _ hno
    exact unmapped_getD Base.ru_layout.data Base.convChar
      (fun c hc => by unfold Base.convChar; rw [if_neg hc]) s i hno
  · intro s i _ hno
    exact unmapped_getD Exp.ru_layout.data Exp.switchChar
      (fun c hc => by unfold Exp.switchChar; rw [if_neg hc]) s i hno

/-- C4 witness: position 0 of "hello" under the base table. -/
theorem c4_unmapped_unchanged_witness :
    (Base.convert_to_wrong_layout "hello").data.getD 0 ' ' = "hello".data.getD 0 ' ' :=
  c4_unmapped_unchanged.1 "hello" 0 (by decide) (by decide)

/-- C5 (amended): in the base generator every `ru_wrong` example is a
lowercased conversion of a source text that the conversion changed, and
has length at least 3 (the expanded generator applies no such check,
see the counterexample). -/
theorem c5_base_ru_wrong :
    ∀ (choice : Nat → String) (tc : Nat),
      (∀ n, choice n ∈ Base.short_russian_words) →
      ∀ p ∈ Base.generate_dataset choice tc, p.2 = "ru_wrong" →
        3 ≤ p.1.length ∧
          ∃ w, p.1 = Base.pyLower (Base.convert_to_wrong_layout w) ∧
            Base.convert_to_wrong_layout w ≠ w :=
  fun choice tc hch p hp => Base.gen_ok choice hch tc p hp

set_option maxRecDepth 20000 in
/-- C5 witness: the seed example "ghbdtn" at `target_count = 30`. -/
theorem c5_base_ru_wrong_witness :
    3 ≤ ("ghbdtn" : String).length ∧
      ∃ w, "ghbdtn" = Base.pyLower (Base.convert_to_wrong_layout w) ∧
        Base.convert_to_wrong_layout w ≠ w :=
  c5_base_ru_wrong (fun _ => "привет") 30
    (fun _ => by show "привет" ∈ Base.short_russian_words; decide)
    ("ghbdtn", "ru_wrong") (by decide) rfl

/-- C5 counterexample: under RNG outcome `rngC` the expanded generator
puts the one-character example ("m", ru_wrong) — the conversion of the
single word "и" — into the final corpus, violating the minimum-length
threshold. -/
theorem mem_take_of_head (l : List α) (a : α) (n : Nat) (hn : 0 < n)
    (h : l.head? = some a) : a ∈ l.take n := by
  cases l with
  | nil => simp at h
  | cons b t =>
    cases n with
    | zero => omega
    | succ m =>
      simp only [List.head?_cons, Option.some.injEq] at h
      subst h
      simp [List.take_succ_cons]

theorem c5_counterexample :
    ("m", "ru_wrong") ∈ Exp.runExp Exp.rngC ∧ ¬ (3 ≤ ("m" : String).length) := by
  refine ⟨?_, by decide⟩
  have hlast : (Exp.datasetPre Exp.rngC.sample).getLast? = some ("m", "ru_wrong") := by
    show (Exp.datasetPre (Exp.all_ru_words.erase "и" ++ ["и"])).getLast? = _
    unfold Exp.datasetPre
    rw [List.map_append, ← List.append_assoc]
    simp only [List.map_cons, List.map_nil]
    rw [List.getLast?_concat]
    rfl
  unfold Exp.runExp Exp.generate_dataset
  refine mem_take_of_head _ _ _ (by omega) ?_
  have hsh : Exp.rngC.shuffle = fun l => l.reverse := rfl
  rw [hsh]
  show (Exp.datasetPre Exp.rngC.sample).reverse.head? = some ("m", "ru_wrong")
  rw [List.head?_reverse]
  exact hlast

set_option maxRecDepth 20000 in
/-- C6 (amended): the base writer quotes a text field iff it contains a
comma and performs no other escaping (quote characters are written
verbatim); the expanded generator's writer is Python's `csv.writer`,
which additionally escapes a field containing a quote character by
quoting it and doubling the quote. -/
theorem c6_escaping :
    (∀ text label : String, ',' ∉ text.data →
      Writer.base_row text label = text ++ "," ++ label ++ "\n") ∧
    (∀ text label : String, ',' ∈ text.data →
      Writer.base_row text label = "\"" ++ text ++ "\"" ++ "," ++ label ++ "\n") ∧
    Writer.base_row "a,b" "en" = "\"a,b\",en\n" ∧
    Writer.base_row "ab" "en" = "ab,en\n" ∧
    Writer.base_row "a\"b" "en" = "a\"b,en\n" ∧
    Writer.csv_row "a,b" "en" = "\"a,b\",en\r\n" ∧
    Writer.csv_row "ab" "en" = "ab,en\r\n" ∧
    Writer.csvField "a\"b" = "\"a\"\"b\"" := by
  refine ⟨?_, ?_, by decide, by decide, by decide, by decide, by decide, by decide⟩
  · intro text label h
    unfold Writer.base_row
    rw [if_neg h]
  · intro text label h
    unfold Writer.base_row
    rw [if_pos h]

/-- C6 witness: the first part at a comma-free text. -/
theorem c6_escaping_witness :
    Writer.base_row "ab" "xy" = "ab" ++ "," ++ "xy" ++ "\n" :=
  c6_escaping.1 "ab" "xy" (by decide)

/-- C6 counterexample: the expanded generator's writer does not write a
double-quote-containing field verbatim. -/
theorem c6_counterexample : Writer.csvField "a\"b" ≠ "a\"b" := by
  decide

/-- C7: whenever `target_count ≥ 30`, every curated seed pair of
`original_data` occurs, with its pre-assigned label, in the base
generator's result (the seeds are in fact extended unconditionally,
before any quota check). -/
theorem c7_seed_pairs :
    ∀ (choice : Nat → String) (tc : Nat), 30 ≤ tc →
      ∀ p ∈ Base.original_data, p ∈ Base.generate_dataset choice tc := by
  intro choice tc _ p hp
  obtain ⟨t, ht⟩ := Base.gen_extends choice tc
  rw [ht]
  exact List.mem_append_left _ hp

set_option maxRecDepth 20000 in
/-- C7 witness: the first seed pair at `target_count = 30`. -/
theorem c7_seed_pairs_witness :
    ("hello world", "en") ∈ Base.generate_dataset (fun _ => "") 30 :=
  c7_seed_pairs (fun _ => "") 30 (by decide) ("hello world", "en") (by decide)

/-- C8 (amended): the base table maps "привет" to "ghbdtn", but the
expanded generator's table is misaligned (its Cyrillic string omits
ъ and ь while its Latin string omits a, s and d), so it maps "привет"
to "jkmgt," instead. -/
theorem c8_privet_mapping :
    Base.convert_to_wrong_layout "привет" = "ghbdtn" ∧
    Exp.layout_switch_ru_to_en "привет" = "jkmgt," :=
  ⟨by decide, by decide⟩

/-- C8 counterexample: the expanded generator's table does not produce
"ghbdtn" from "привет". -/
theorem c8_counterexample : Exp.layout_switch_ru_to_en "привет" ≠ "ghbdtn" := by
  decide

/-- C9: both layout strings of the base generator have 66 characters,
the index of every `ru_layout` character is below the length of
`en_layout`, and therefore the bounds-check fallback branch of
`convert_to_wrong_layout` is unreachable: the function equals the
variant without that branch on every input. -/
theorem c9_fallback_unreachable :
    Base.ru_layout.length = 66 ∧ Base.en_layout.length = 66 ∧
    (∀ c ∈ Base.ru_layout.data,
      Base.ru_layout.data.indexOf c < Base.en_layout.data.length) ∧
    ∀ s, Base.convert_to_wrong_layout s = ⟨s.data.map Base.convCharTotal⟩ := by
  refine ⟨by decide, by decide, Base.ru_index_lt, ?_⟩
  intro s
  unfold Base.convert_to_wrong_layout
  rw [Base.convChar_eq_total]

/-- C9 witness: the bound at the first table character. -/
theorem c9_fallback_unreachable_witness :
    Base.ru_layout.data.indexOf 'й' < Base.en_layout.data.length :=
  c9_fallback_unreachable.2.2.1 'й' (by decide)

/-- C10 (amended): the expanded generator always returns exactly 5000
examples because its sources total 5464 before truncation; however the
popular word lists have 206 and 154 entries (not 250), and the number
of ru_wrong conversions equals the 391-word pool size (not 1000). -/
theorem c10_expanded_size :
    (Exp.datasetPre Exp.all_ru_words).length = 5464 ∧
    (∀ (sample : List String)
      (shuffle : List (String × String) → List (String × String)),
      (∀ l, (shuffle l).length = l.length) →
      sample.length = Exp.all_ru_words.length →
      (Exp.generate_dataset sample shuffle).length = 5000) := by
  refine ⟨?_, Exp.gen_length⟩
  rw [Exp.datasetPre_length, Exp.all_ru_words_length]

/-- C10 witness: the second part at the identity shuffle. -/
theorem c10_expanded_size_witness :
    (Exp.generate_dataset Exp.all_ru_words id).length = 5000 :=
  c10_expanded_size.2 Exp.all_ru_words id (fun _ => rfl) rfl

/-- C10 counterexample: the popular word lists have fewer than 250
entries, and the generator assembles one ru_wrong example per pool word
— 391 of them, not 1000. -/
theorem c10_counterexample :
    Exp.popular_en.length = 206 ∧ Exp.popular_ru.length = 154 ∧
    (Exp.datasetPre Exp.all_ru_words).countP (fun p => p.2 == "ru_wrong") =
      Exp.all_ru_words.length ∧
    Exp.all_ru_words.length ≠ 1000 := by
  refine ⟨Exp.popular_en_length, Exp.popular_ru_length,
    Exp.datasetPre_wrong_count _, ?_⟩
  rw [Exp.all_ru_words_length]
  decide

end Babylonfish
